import Mathlib

/-!
Shallow embedding of the Satya-Drishti fusion & escalation engine.

The source is a TypeScript single-page app.  The logic verified here lives in
`services/geminiService.ts` (`analyzeContent`, `generateRebuttal`) and in
`components/FileUpload.tsx` (`validateAndSetFile`, `MAX_FILE_SIZE`).

Modelling conventions:
* JavaScript numbers are modelled as `ℚ` (all scores in play are exact in
  binary floating point over the ranges involved; `Math.round` is modelled as
  round-half-up `⌊q + 1/2⌋`, which is its semantics on these values).
* External collaborator calls (the Gemini content analysis, the mocked
  deepfake check, the rebuttal generation call) are nondeterministic at run
  time; their outcomes are passed to the embedded functions as explicit
  arguments, and the outbound calls an execution performs are recorded in a
  trace (`List OutboundCall`).
* TypeScript `undefined`/optional fields are `Option`; JavaScript string
  truthiness (`s || t`) is `jsOr`: the fallback is taken when the string is
  empty (or, for `Option String`, absent).
-/

/-- Risk level enum of the response schema in `geminiService.ts`. -/
inductive RiskLevel
  | SAFE
  | CAUTION
  | SUSPICIOUS
  | DANGEROUS
  | CRITICAL
deriving DecidableEq, Repr

/-- Severity enum of a propaganda flag. -/
inductive Severity
  | LOW
  | MEDIUM
  | HIGH
  | CRITICAL
deriving DecidableEq, Repr

/-- `PropagandaFlag` from `types.ts`. -/
structure PropagandaFlag where
  technique : String
  description : String
  severity : Severity
  location : Option String
deriving DecidableEq, Repr

/-- `AnalysisResult` from `types.ts`.  `riskScore` is the contextual
propaganda score returned by the Content Analyzer; `fusionScore` and the
visual-integrity / rebuttal fields are filled in by the fusion logic. -/
structure AnalysisResult where
  riskScore : ℚ
  fusionScore : ℚ
  riskLevel : RiskLevel
  summary : String
  flags : List PropagandaFlag
  narrativeStrategy : Option String
  emotionalTriggers : Option (List String)
  visualIntegrityScore : Option ℚ
  visualIntegrityWarning : Option String
  rebuttal : Option String
deriving DecidableEq, Repr

/-- An assessment as parsed from the Content Analyzer response.  The
response schema (`RESPONSE_SCHEMA`) only produces the fields listed here:
the fusion, visual-integrity and rebuttal fields are absent from the parsed
JSON (modelled as `none`; `fusionScore` is unconditionally overwritten by
the fusion logic, so its initial value `0` is immaterial). -/
def parsedAssessment (riskScore : ℚ) (riskLevel : RiskLevel) (summary : String)
    (flags : List PropagandaFlag) (narrativeStrategy : Option String)
    (emotionalTriggers : Option (List String)) : AnalysisResult :=
  { riskScore := riskScore
    fusionScore := 0
    riskLevel := riskLevel
    summary := summary
    flags := flags
    narrativeStrategy := narrativeStrategy
    emotionalTriggers := emotionalTriggers
    visualIntegrityScore := none
    visualIntegrityWarning := none
    rebuttal := none }

/-- JavaScript `Math.round`: round half up (ties go toward positive
infinity), i.e. `⌊q + 1/2⌋`. -/
def jsRound (q : ℚ) : ℤ := ⌊q + 1 / 2⌋

/-- JavaScript `s || t` on strings: the empty string is falsy. -/
def jsOr (s t : String) : String := if s = "" then t else s

/-- JavaScript `s || t` where `s : string | undefined`. -/
def jsOrOpt (s : Option String) (t : String) : String :=
  match s with
  | some s => jsOr s t
  | none => t

/-- Fusion score logic of `analyzeContent` (the block between the
`FUSION SCORE LOGIC` comment and `result.fusionScore = fusionScore`,
including the critical-alert escalation).  `deepfakeScore` is the integrity
score returned by `checkDeepfake` when a file was submitted (`none`
otherwise). -/
def fuseScores (result : AnalysisResult) (deepfakeScore : Option ℚ) : AnalysisResult :=
  match deepfakeScore with
  | none => { result with fusionScore := result.riskScore }
  | some score =>
      let manipulationRisk : ℚ := 100 - score
      let fusionScore : ℚ := (jsRound ((result.riskScore + manipulationRisk) / 2) : ℤ)
      { result with
          visualIntegrityScore := some score
          visualIntegrityWarning :=
            if score < 70 then some "Potential AI Artifacts Detected"
            else result.visualIntegrityWarning
          riskLevel :=
            if score < 70 ∧ result.riskScore > 85 then RiskLevel.CRITICAL
            else result.riskLevel
          fusionScore := fusionScore }

/-- Outcome of the rebuttal generation call inside `generateRebuttal`:
the promise either resolves with a `response.text` (which may be absent or
empty) or rejects (the call throws). -/
inductive RebuttalCallResult
  | resolved (text : Option String)
  | rejected
deriving DecidableEq, Repr

/-- `generateRebuttal` from `geminiService.ts`.  The `context` string is
interpolated into the outbound prompt; the returned text is the call's
outcome.  The `try`/`catch` makes the function total: a rejected call
degrades to a placeholder string, and so does a missing or empty response
text. -/
def generateRebuttal (context : String) (call : RebuttalCallResult) : String :=
  match call with
  | RebuttalCallResult.resolved text => jsOrOpt text "Rebuttal generation unavailable."
  | RebuttalCallResult.rejected => "Could not generate rebuttal at this time."

/-- The context string `result.summary || caption || "The uploaded media
content."` chosen for the rebuttal prompt. -/
def contextForRebuttal (result : AnalysisResult) (caption : String) : String :=
  jsOr result.summary (jsOr caption "The uploaded media content.")

/-- Fusion followed by the conditional rebuttal step of `analyzeContent`.
Returns the finished report together with the context string of the
rebuttal request, when one was issued (`none` when no rebuttal call was
made). -/
def fuse (result : AnalysisResult) (deepfakeScore : Option ℚ) (caption : String)
    (rebuttalCall : RebuttalCallResult) : AnalysisResult × Option String :=
  let fused := fuseScores result deepfakeScore
  if fused.riskLevel = RiskLevel.CRITICAL then
    let context := contextForRebuttal fused caption
    ({ fused with rebuttal := some (generateRebuttal context rebuttalCall) }, some context)
  else
    (fused, none)

/-- The kinds of parts pushed onto the Gemini request. -/
inductive RequestPart
  | text
  | inlineData
deriving DecidableEq, Repr

/-- The `parts` array built by `analyzeContent`: a text part when the
trimmed caption is truthy, then an inline-data part when a file is
present. -/
def requestParts (hasFile : Bool) (caption : String) : List RequestPart :=
  (if caption.trim ≠ "" then [RequestPart.text] else []) ++
  (if hasFile then [RequestPart.inlineData] else [])

/-- Outbound network calls `analyzeContent` can issue. -/
inductive OutboundCall
  | contentAnalysis
  | deepfakeCheck
  | rebuttal
deriving DecidableEq, Repr

/-- Outcome of the Gemini content-analysis call: it threw (network failure,
blocked content, or unparseable JSON), returned no text, or returned text
that parsed into an `AnalysisResult`. -/
inductive GeminiOutcome
  | threw
  | noText
  | parsed (result : AnalysisResult)
deriving DecidableEq, Repr

/-- `analyzeContent` from `geminiService.ts`, as a function of the request
(`hasFile`, `caption`), the ambient configuration (`apiKeyPresent`), and
the collaborator outcomes.  The second component is the trace of outbound
calls the execution issued, in the order they were launched. -/
def analyzeContent (apiKeyPresent : Bool) (hasFile : Bool) (caption : String)
    (gemini : GeminiOutcome) (deepfakeScore : ℚ) (rebuttalCall : RebuttalCallResult) :
    Except String AnalysisResult × List OutboundCall :=
  if apiKeyPresent = false then
    (Except.error "API Key is missing.", [])
  else
    let parts := requestParts hasFile caption
    if parts.length = 0 then
      (Except.error "Please provide at least a file or a caption to analyze.", [])
    else
      let calls := [OutboundCall.contentAnalysis] ++
        (if hasFile then [OutboundCall.deepfakeCheck] else [])
      match gemini with
      | GeminiOutcome.threw =>
          (Except.error "Failed to analyze content. The model may have been blocked or the input format is invalid.", calls)
      | GeminiOutcome.noText =>
          (Except.error "Failed to analyze content. The model may have been blocked or the input format is invalid.", calls)
      | GeminiOutcome.parsed result =>
          let deepfake := if hasFile then some deepfakeScore else none
          let fused := fuse result deepfake caption rebuttalCall
          (Except.ok fused.1,
           calls ++ (match fused.2 with | some _ => [OutboundCall.rebuttal] | none => []))

/-- `MAX_FILE_SIZE` from `FileUpload.tsx`: the 20 MB upload limit. -/
def MAX_FILE_SIZE : Nat := 20 * 1024 * 1024

/-- Metadata of a browser `File` object used by the upload validation. -/
structure FileMeta where
  size : Nat
  type : String
  name : String
deriving DecidableEq, Repr

/-- The component state touched by `validateAndSetFile`: the error message
and the selected file held by the parent. -/
structure UploadState where
  error : Option String
  selectedFile : Option FileMeta
deriving DecidableEq, Repr

/-- `validateAndSetFile` from `FileUpload.tsx` as a state transition.  The
function is synchronous and performs no network interaction: it only reads
the file's declared `size` and MIME `type` and updates component state. -/
def validateAndSetFile (s : UploadState) (file : FileMeta) : UploadState :=
  if file.size > MAX_FILE_SIZE then
    { s with error := some "File size exceeds 20MB limit." }
  else if ¬(file.type.startsWith "image/" ∨ file.type.startsWith "video/") then
    { s with error := some "Only image and video files are supported." }
  else
    { error := none, selectedFile := some file }

/-- C1: with an authenticity signal present, the fused risk level is forced
to CRITICAL exactly when `integrityScore < 70` and
`contextualRiskScore > 85` both hold; otherwise the Content Analyzer's
level is passed through unchanged. -/
theorem fuseScores_escalation_iff (r : AnalysisResult) (d : ℚ) :
    (fuseScores r (some d)).riskLevel =
      if d < 70 ∧ r.riskScore > 85 then RiskLevel.CRITICAL else r.riskLevel := by
  rfl

/-- C2: with both scores in range, the fusion score is the round-half-up of
the average of the contextual risk score and the manipulation risk
`100 − integrityScore`; `jsRound` is characterised as the round-half-up
function (the unique integer `n` with `n − 1/2 ≤ q < n + 1/2`). -/
theorem fuseScores_fusion_formula (r : AnalysisResult) (d : ℚ)
    (h0 : 0 ≤ r.riskScore) (h1 : r.riskScore ≤ 100) (h2 : 0 ≤ d) (h3 : d ≤ 100) :
    (fuseScores r (some d)).fusionScore =
      ((jsRound ((r.riskScore + (100 - d)) / 2) : ℤ) : ℚ) ∧
    ∀ n : ℤ, jsRound ((r.riskScore + (100 - d)) / 2) = n ↔
      (n : ℚ) - 1 / 2 ≤ (r.riskScore + (100 - d)) / 2 ∧
      (r.riskScore + (100 - d)) / 2 < (n : ℚ) + 1 / 2 := by
  constructor
  · rfl
  · intro n
    unfold jsRound
    rw [Int.floor_eq_iff]
    constructor
    · rintro ⟨ha, hb⟩
      push_cast at ha hb ⊢
      constructor <;> linarith
    · rintro ⟨ha, hb⟩
      push_cast at ha hb ⊢
      constructor <;> linarith

/-- Witness for C2: the spec's worked example (contextualRiskScore = 90,
integrityScore = 60) yields fusionScore = 65. -/
theorem fuseScores_fusion_formula_witness :
    (fuseScores (parsedAssessment 90 RiskLevel.DANGEROUS "" [] none none)
      (some 60)).fusionScore = 65 := by
  have h := fuseScores_fusion_formula
    (parsedAssessment 90 RiskLevel.DANGEROUS "" [] none none) 60
    (by norm_num [parsedAssessment]) (by norm_num [parsedAssessment])
    (by norm_num) (by norm_num)
  rw [h.1]
  norm_num [parsedAssessment, jsRound]

/-- C4: with no authenticity signal, the fusion score equals the contextual
risk score, the visual-integrity fields stay unset, and the risk level is
passed through unchanged. -/
theorem fuseScores_no_authenticity (risk : ℚ) (lvl : RiskLevel) (summary : String)
    (flags : List PropagandaFlag) (ns : Option String) (et : Option (List String)) :
    (fuseScores (parsedAssessment risk lvl summary flags ns et) none).fusionScore = risk ∧
    (fuseScores (parsedAssessment risk lvl summary flags ns et) none).visualIntegrityScore = none ∧
    (fuseScores (parsedAssessment risk lvl summary flags ns et) none).visualIntegrityWarning = none ∧
    (fuseScores (parsedAssessment risk lvl summary flags ns et) none).riskLevel = lvl :=
  ⟨rfl, rfl, rfl, rfl⟩

/-- C5: with an authenticity signal present, `visualIntegrityScore` is set
to the integrity score, and `visualIntegrityWarning` is the fixed warning
string exactly when the integrity score is below 70 (unset otherwise). -/
theorem fuseScores_visual_integrity (risk : ℚ) (lvl : RiskLevel) (summary : String)
    (flags : List PropagandaFlag) (ns : Option String) (et : Option (List String)) (d : ℚ) :
    (fuseScores (parsedAssessment risk lvl summary flags ns et) (some d)).visualIntegrityScore =
      some d ∧
    (fuseScores (parsedAssessment risk lvl summary flags ns et) (some d)).visualIntegrityWarning =
      (if d < 70 then some "Potential AI Artifacts Detected" else none) :=
  ⟨rfl, rfl⟩

/-- C3: the rebuttal generator is invoked exactly when the final (possibly
escalated) risk level is CRITICAL; its context string is the summary if
non-empty, else the caption if non-empty, else the fixed fallback; the
`rebuttal` field is set to the generator's result exactly when it was
invoked and is otherwise left unset. -/
theorem fuse_rebuttal_trigger (risk : ℚ) (lvl : RiskLevel) (summary : String)
    (flags : List PropagandaFlag) (ns : Option String) (et : Option (List String))
    (d : Option ℚ) (caption : String) (call : RebuttalCallResult) :
    (fuse (parsedAssessment risk lvl summary flags ns et) d caption call).2 =
      (if (fuse (parsedAssessment risk lvl summary flags ns et) d caption call).1.riskLevel =
          RiskLevel.CRITICAL
       then some (contextForRebuttal
          (fuseScores (parsedAssessment risk lvl summary flags ns et) d) caption)
       else none) ∧
    (fuse (parsedAssessment risk lvl summary flags ns et) d caption call).1.rebuttal =
      (if (fuse (parsedAssessment risk lvl summary flags ns et) d caption call).1.riskLevel =
          RiskLevel.CRITICAL
       then some (generateRebuttal (contextForRebuttal
          (fuseScores (parsedAssessment risk lvl summary flags ns et) d) caption) call)
       else none) ∧
    contextForRebuttal (fuseScores (parsedAssessment risk lvl summary flags ns et) d) caption =
      (if summary ≠ "" then summary
       else if caption ≠ "" then caption
       else "The uploaded media content.") := by
  have hsum : (fuseScores (parsedAssessment risk lvl summary flags ns et) d).summary = summary := by
    cases d <;> rfl
  have hreb : (fuseScores (parsedAssessment risk lvl summary flags ns et) d).rebuttal = none := by
    cases d <;> rfl
  refine ⟨?_, ?_, ?_⟩
  · by_cases h : (fuseScores (parsedAssessment risk lvl summary flags ns et) d).riskLevel =
        RiskLevel.CRITICAL <;>
      simp [fuse, h]
  · by_cases h : (fuseScores (parsedAssessment risk lvl summary flags ns et) d).riskLevel =
        RiskLevel.CRITICAL <;>
      simp [fuse, h, hreb]
  · simp only [contextForRebuttal, hsum, jsOr]
    by_cases hs : summary = "" <;> by_cases hc : caption = "" <;> simp [hs, hc]

/-- C6: a failing rebuttal call never propagates past the rebuttal
boundary: a rejected call and an empty or missing response text each
degrade to a fixed placeholder string stored in `rebuttal`, and every other
field of the fused report (and the request trace) is independent of the
rebuttal call's outcome, so the overall fusion still succeeds. -/
theorem generateRebuttal_absorbs_failure (context : String) (risk : ℚ) (lvl : RiskLevel)
    (summary : String) (flags : List PropagandaFlag) (ns : Option String)
    (et : Option (List String)) (d : Option ℚ) (caption : String)
    (c1 c2 : RebuttalCallResult) :
    generateRebuttal context RebuttalCallResult.rejected =
      "Could not generate rebuttal at this time." ∧
    generateRebuttal context (RebuttalCallResult.resolved (some "")) =
      "Rebuttal generation unavailable." ∧
    generateRebuttal context (RebuttalCallResult.resolved none) =
      "Rebuttal generation unavailable." ∧
    (fuse (parsedAssessment risk lvl summary flags ns et) d caption
        RebuttalCallResult.rejected).1.rebuttal =
      (if (fuseScores (parsedAssessment risk lvl summary flags ns et) d).riskLevel =
          RiskLevel.CRITICAL
       then some "Could not generate rebuttal at this time." else none) ∧
    { (fuse (parsedAssessment risk lvl summary flags ns et) d caption c1).1 with
        rebuttal := none } =
      { (fuse (parsedAssessment risk lvl summary flags ns et) d caption c2).1 with
        rebuttal := none } ∧
    (fuse (parsedAssessment risk lvl summary flags ns et) d caption c1).2 =
      (fuse (parsedAssessment risk lvl summary flags ns et) d caption c2).2 := by
  have hreb : (fuseScores (parsedAssessment risk lvl summary flags ns et) d).rebuttal = none := by
    cases d <;> rfl
  refine ⟨rfl, rfl, rfl, ?_, ?_, ?_⟩
  · by_cases h : (fuseScores (parsedAssessment risk lvl summary flags ns et) d).riskLevel =
        RiskLevel.CRITICAL <;>
      simp [fuse, h, generateRebuttal, hreb]
  · by_cases h : (fuseScores (parsedAssessment risk lvl summary flags ns et) d).riskLevel =
        RiskLevel.CRITICAL <;>
      simp [fuse, h]
  · by_cases h : (fuseScores (parsedAssessment risk lvl summary flags ns et) d).riskLevel =
        RiskLevel.CRITICAL <;>
      simp [fuse, h]

/-- C9: the fusion computation is deterministic — identical inputs (the
parsed assessment, the optional authenticity score, the caption, and the
rebuttal collaborator's response) produce identical outputs in every field;
the component reads no hidden state and uses no randomness. -/
theorem fuse_deterministic (r1 r2 : AnalysisResult) (d1 d2 : Option ℚ)
    (c1 c2 : String) (o1 o2 : RebuttalCallResult)
    (hr : r1 = r2) (hd : d1 = d2) (hc : c1 = c2) (ho : o1 = o2) :
    fuse r1 d1 c1 o1 = fuse r2 d2 c2 o2 ∧ fuseScores r1 d1 = fuseScores r2 d2 := by
  subst hr; subst hd; subst hc; subst ho
  exact ⟨rfl, rfl⟩

/-- Witness for C9: two runs on an identical concrete input coincide. -/
theorem fuse_deterministic_witness :
    fuse (parsedAssessment 90 RiskLevel.CRITICAL "s" [] none none) (some 60) "c"
        (RebuttalCallResult.resolved (some "t")) =
      fuse (parsedAssessment 90 RiskLevel.CRITICAL "s" [] none none) (some 60) "c"
        (RebuttalCallResult.resolved (some "t")) :=
  (fuse_deterministic _ _ _ _ _ _ _ _ rfl rfl rfl rfl).1

/-- C10: when the API key is absent, `analyzeContent` fails with the key
error before input validation and before any outbound call, for every
request — including the all-empty request, whose "no input" error is
thereby masked. -/
theorem analyzeContent_missing_api_key (hasFile : Bool) (caption : String)
    (g : GeminiOutcome) (d : ℚ) (call : RebuttalCallResult) :
    analyzeContent false hasFile caption g d call =
      (Except.error "API Key is missing.", []) := rfl

/-- C7: with the API key present, `analyzeContent` rejects the request with
the "no input" error — before any outbound call (empty trace) — exactly
when no file is supplied and the caption trims to empty; a caption-only
request proceeds to the content-analysis call but never runs the deepfake
check, and a media-only request runs both the content-analysis and the
deepfake check. -/
theorem analyzeContent_input_validation (caption : String)
    (g : GeminiOutcome) (d : ℚ) (call : RebuttalCallResult) :
    (analyzeContent true false caption g d call =
       (Except.error "Please provide at least a file or a caption to analyze.", []) ↔
     caption.trim = "") ∧
    (OutboundCall.contentAnalysis ∈ (analyzeContent true false caption g d call).2 ↔
     caption.trim ≠ "") ∧
    OutboundCall.deepfakeCheck ∉ (analyzeContent true false caption g d call).2 ∧
    OutboundCall.contentAnalysis ∈ (analyzeContent true true caption g d call).2 ∧
    OutboundCall.deepfakeCheck ∈ (analyzeContent true true caption g d call).2 := by
  by_cases hc : caption.trim = ""
  · cases g with
    | threw => simp [analyzeContent, requestParts, hc]
    | noText => simp [analyzeContent, requestParts, hc]
    | parsed r =>
        cases hfe : (fuse r (some d) caption call).2 <;>
          simp [analyzeContent, requestParts, hc, hfe]
  · cases g with
    | threw => simp [analyzeContent, requestParts, hc]
    | noText => simp [analyzeContent, requestParts, hc]
    | parsed r =>
        cases hf0 : (fuse r none caption call).2 <;>
          cases hf1 : (fuse r (some d) caption call).2 <;>
            simp [analyzeContent, requestParts, hc, hf0, hf1]

/-- C8: `validateAndSetFile` rejects a file exactly when its declared size
exceeds 20 MiB or its MIME type is neither an image nor a video type; each
rejection stores the corresponding error message and leaves the selected
file unchanged, and an accepted file clears the error and becomes the
selection. -/
theorem validateAndSetFile_spec (s : UploadState) (f : FileMeta) :
    MAX_FILE_SIZE = 20 * 1024 * 1024 ∧
    ((validateAndSetFile s f).error ≠ none ↔
      (f.size > MAX_FILE_SIZE ∨
        ¬(f.type.startsWith "image/" ∨ f.type.startsWith "video/"))) ∧
    (validateAndSetFile s f).error =
      (if f.size > MAX_FILE_SIZE then some "File size exceeds 20MB limit."
       else if ¬(f.type.startsWith "image/" ∨ f.type.startsWith "video/") then
         some "Only image and video files are supported."
       else none) ∧
    (validateAndSetFile s f).selectedFile =
      (if f.size > MAX_FILE_SIZE ∨
          ¬(f.type.startsWith "image/" ∨ f.type.startsWith "video/")
       then s.selectedFile else some f) := by
  refine ⟨rfl, ?_⟩
  by_cases h1 : f.size > MAX_FILE_SIZE <;>
    by_cases h2 : f.type.startsWith "image/" ∨ f.type.startsWith "video/" <;>
      simp [validateAndSetFile, h1, h2]
